import Mathlib

/-!
Shallow embedding of the credential-lifecycle core of the jira-monitor
repository (NestJS/TypeScript), together with the issue-triage pipeline.

Conventions of the embedding:
* timestamps are `Int` milliseconds since the epoch (`Date.now()`, `Date.getTime()`);
* a JavaScript value that may be `undefined`/missing is an `Option`;
  JavaScript truthiness of an optional string (`if (x)` / `!x`) is the
  predicate `truthy` below (`undefined` and `""` are falsy);
* the SQLite table `jira_credentials` is a `List JiraCredentialEntity`
  (TypeORM's generated `id`, `createdAt`, `updatedAt` bookkeeping columns
  carry no claim content and are omitted);
* each `await`ed HTTP call is an explicit input (its outcome is an oracle
  passed to the function), and the functions return the new store state
  together with the number of refresh-grant POSTs they issued, so that
  "zero network requests" claims are statable.
-/

/-- JavaScript truthiness of an optional string: `undefined` and `""` are falsy. -/
def truthy : Option String → Bool
  | none => false
  | some s => s ≠ ""

/-- One row of the `jira_credentials` table (src/domain/entities/jira-credential.entity.ts). -/
structure JiraCredentialEntity where
  userId : String
  cloudId : String
  accessToken : String
  refreshToken : String
  expiresAt : Int
  deriving Repr, DecidableEq

/-- The `jira_credentials` table: a list of rows (userId has an index but no
uniqueness constraint in the entity). -/
abbrev CredStore := List JiraCredentialEntity

/-- Embeds `JiraCredentialRepository.findByUserId`: `repo.findOne({ where: { userId } })`,
the first row whose `userId` matches. -/
def findByUserId (store : CredStore) (userId : String) : Option JiraCredentialEntity :=
  store.find? (fun r => r.userId == userId)

/-- Parameters of `JiraCredentialRepository.upsertCredentials`. -/
structure UpsertParams where
  userId : String
  cloudId : String
  accessToken : String
  refreshToken : String
  expiresAt : Int
  deriving Repr, DecidableEq

/-- The `existing` branch of `upsertCredentials`: the found row (the first with
this `userId`) has its `cloudId/accessToken/refreshToken/expiresAt` overwritten
and is saved back; no other row changes. -/
def updateFirstRow (p : UpsertParams) : List JiraCredentialEntity → List JiraCredentialEntity
  | [] => []
  | r :: rs =>
    if r.userId == p.userId then
      { r with cloudId := p.cloudId, accessToken := p.accessToken,
               refreshToken := p.refreshToken, expiresAt := p.expiresAt } :: rs
    else r :: updateFirstRow p rs

/-- Embeds `JiraCredentialRepository.upsertCredentials`: find the row for `userId`;
if present overwrite its token fields, otherwise append a freshly created row. -/
def upsertCredentials (store : CredStore) (p : UpsertParams) : CredStore :=
  match findByUserId store p.userId with
  | some _ => updateFirstRow p store
  | none =>
      store ++ [{ userId := p.userId, cloudId := p.cloudId, accessToken := p.accessToken,
                  refreshToken := p.refreshToken, expiresAt := p.expiresAt }]

/-- Parameters of `JiraCredentialRepository.updateAccessToken`
(`newRefreshToken` is optional in the TypeScript signature). -/
structure UpdateTokenParams where
  userId : String
  newAccessToken : String
  newExpiresAt : Int
  newRefreshToken : Option String
  deriving Repr, DecidableEq

/-- The partial-update object built by `updateAccessToken` applied to one row:
`accessToken` and `expiresAt` always change; `refreshToken` changes only when
`if (newRefreshToken)` holds, i.e. when the optional value is truthy. -/
def applyTokenUpdate (p : UpdateTokenParams) (r : JiraCredentialEntity) : JiraCredentialEntity :=
  { r with
    accessToken := p.newAccessToken
    expiresAt := p.newExpiresAt
    refreshToken :=
      match p.newRefreshToken with
      | some t => if t ≠ "" then t else r.refreshToken
      | none => r.refreshToken }

/-- Embeds `JiraCredentialRepository.updateAccessToken`:
`repo.update({ userId }, updateData)` — an SQL UPDATE of every row whose
`userId` matches, with the partial object `updateData`. -/
def updateAccessToken (store : CredStore) (p : UpdateTokenParams) : CredStore :=
  store.map (fun r => if r.userId == p.userId then applyTokenUpdate p r else r)

/-- The environment variables read by `AuthService`
(`JIRA_CLIENT_ID`, `JIRA_CLIENT_SECRET`, `JIRA_REDIRECT_URI`). -/
structure AuthEnv where
  clientId : Option String
  clientSecret : Option String
  redirectUri : Option String
  deriving Repr, DecidableEq

/-- Body of a token-endpoint response as the code actually inspects it:
`access_token`/`refresh_token` may be absent (the code checks them with
truthiness), `expires_in` is in seconds. `token_type`/`scope` are unused. -/
structure TokenResponseBody where
  access_token : Option String
  refresh_token : Option String
  expires_in : Int
  deriving Repr, DecidableEq

/-- Outcome of one `await firstValueFrom(this.httpService...)` call: either a
body or a thrown transport/non-2xx error. -/
inductive HttpOutcome (α : Type) where
  | ok (body : α)
  | transportError
  deriving Repr, DecidableEq

/-- The error cases `AuthService` can throw (BadRequest / InternalServerError). -/
inductive AuthErrorKind where
  | noCredential
  | missingConfig
  | upstreamFailure
  | missingTokens
  | noAccessibleResource
  deriving Repr, DecidableEq

/-- The value `refreshAccessToken` resolves with on success. -/
structure RefreshSuccess where
  newAccessToken : String
  newRefreshToken : String
  newExpiresIn : Int
  deriving Repr, DecidableEq

deriving instance DecidableEq for Except

/-- Result of `AuthService.refreshAccessToken`: the store after the call, the
number of refresh-grant POSTs issued to the token endpoint, and the outcome. -/
structure RefreshOutcome where
  store : CredStore
  posts : Nat
  result : Except AuthErrorKind RefreshSuccess
  deriving Repr, DecidableEq

/-- Embeds `AuthService.refreshAccessToken` (src/application/services/auth/auth.service.ts):
load the credential (fail `noCredential`); check
`JIRA_CLIENT_ID`/`JIRA_CLIENT_SECRET` (fail `missingConfig`); POST the
refresh-token grant (fail `upstreamFailure` on a thrown transport error);
require truthy `access_token` and `refresh_token` in the body (fail
`missingTokens`); then `updateAccessToken` with the new values —
`newRefreshToken` is always passed — and resolve with the new tokens.
The session-update step is dead code here (no session is passed by callers). -/
def refreshAccessToken (env : AuthEnv) (store : CredStore) (userId : String)
    (tokenHttp : HttpOutcome TokenResponseBody) (now : Int) : RefreshOutcome :=
  match findByUserId store userId with
  | none => ⟨store, 0, .error .noCredential⟩
  | some _ =>
    if truthy env.clientId && truthy env.clientSecret then
      match tokenHttp with
      | .transportError => ⟨store, 1, .error .upstreamFailure⟩
      | .ok b =>
        if truthy b.access_token && truthy b.refresh_token then
          let tok := b.access_token.getD ""
          let rtok := b.refresh_token.getD ""
          let newExpiresAt := now + b.expires_in * 1000
          ⟨updateAccessToken store ⟨userId, tok, newExpiresAt, b.refresh_token⟩,
           1, .ok ⟨tok, rtok, b.expires_in⟩⟩
        else ⟨store, 1, .error .missingTokens⟩
    else ⟨store, 0, .error .missingConfig⟩

/-- Embeds `JiraQueueMonitorService.REFRESH_BUFFER_MS = 60 * 1000`. -/
def REFRESH_BUFFER_MS : Int := 60 * 1000

/-- Embeds `JiraQueueMonitorService.checkAndRefreshToken`: for `userId = "default"`,
abort if no credential; compute `msLeft = expiresAt - now`; if
`msLeft < REFRESH_BUFFER_MS` call `refreshAccessToken` (its error is caught and
only logged), otherwise do nothing. Returns the store and the number of
refresh-grant POSTs issued. -/
def checkAndRefreshToken (env : AuthEnv) (store : CredStore)
    (tokenHttp : HttpOutcome TokenResponseBody) (now : Int) : CredStore × Nat :=
  let userId := "default"
  match findByUserId store userId with
  | none => (store, 0)
  | some cred =>
    if cred.expiresAt - now < REFRESH_BUFFER_MS then
      let o := refreshAccessToken env store userId tokenHttp now
      (o.store, o.posts)
    else (store, 0)

/-- One entry of the `accessible-resources` response; only `id` (the cloudId)
is used. -/
structure AccessibleResource where
  id : String
  deriving Repr, DecidableEq

/-- The value `AuthService.handleCallback` resolves with: it hands the tokens,
the cloudId and `expiresIn` back to its caller (the controller). -/
structure HandleCallbackResult where
  accessToken : String
  refreshToken : String
  cloudId : String
  expiresIn : Int
  deriving Repr, DecidableEq

/-- Embeds `AuthService.handleCallback`: check the three env settings; POST the
authorization-code grant; require truthy `access_token` and `refresh_token`;
GET accessible-resources; require a non-empty list and take `resources[0].id`
as cloudId; compute `expiresAt = now + expires_in * 1000`;
`upsertCredentials`; return the tokens, cloudId and `expiresIn`.
(The session writes are mirrored outward by the controller embedding below.) -/
def handleCallback (env : AuthEnv) (store : CredStore) (userId : String)
    (tokenHttp : HttpOutcome TokenResponseBody)
    (resourcesHttp : HttpOutcome (List AccessibleResource)) (now : Int) :
    CredStore × Except AuthErrorKind HandleCallbackResult :=
  if truthy env.clientId && truthy env.clientSecret && truthy env.redirectUri then
    match tokenHttp with
    | .transportError => (store, .error .upstreamFailure)
    | .ok b =>
      if truthy b.access_token && truthy b.refresh_token then
        match resourcesHttp with
        | .transportError => (store, .error .upstreamFailure)
        | .ok [] => (store, .error .noAccessibleResource)
        | .ok (r0 :: _) =>
          let tok := b.access_token.getD ""
          let rtok := b.refresh_token.getD ""
          let expiresAt := now + b.expires_in * 1000
          (upsertCredentials store ⟨userId, r0.id, tok, rtok, expiresAt⟩,
           .ok ⟨tok, rtok, r0.id, b.expires_in⟩)
      else (store, .error .missingTokens)
  else (store, .error .missingConfig)

/-- The JSON body returned by `OauthCallbackController.callback`
(src/adapters/controllers/auth/oauth-callback.controller.ts, step 4):
`res.json({ message, cloudId, expiresIn })` — these three fields and nothing
else. -/
structure CallbackHttpResponse where
  message : String
  cloudId : String
  expiresIn : Int
  deriving Repr, DecidableEq

/-- Step 4 of `OauthCallbackController.callback`: project the service result
onto the outward JSON body. -/
def callbackResponse (r : HandleCallbackResult) : CallbackHttpResponse :=
  { message := "Autorização concluída com sucesso!"
    cloudId := r.cloudId
    expiresIn := r.expiresIn }

/-- The caller-facing boundary of the authorization-code exchange: the outward
JSON body when `handleCallback` succeeds, nothing when it throws. -/
def oauthCallbackOutward (svc : CredStore × Except AuthErrorKind HandleCallbackResult) :
    Option CallbackHttpResponse :=
  match svc.2 with
  | .ok r => some (callbackResponse r)
  | .error _ => none

/-!
Cooperative-interleaving model of concurrent refresh attempts.

`checkAndRefreshToken` and `fetchAndProcessIssues` both run the sequence
"read the credential, compare `msLeft` against the buffer, and if stale call
`refreshAccessToken`", and `refreshAccessToken` itself awaits the `findOne`,
the POST, and the `update` in turn.  On Node's event loop another task may run
between any two of those `await`s.  A refresher task is therefore modelled in
three atomic phases separated by suspension points: `toCheck` (read the row
and compare against the buffer), `toGrant` (POST the refresh-token grant),
`toWrite` (write the new tokens with `updateAccessToken`).  Nothing in the
source takes a lock or caches an in-flight promise between these phases.
-/

/-- Program counter of one refresher task. -/
inductive RefresherPhase where
  | toCheck
  | toGrant
  | toWrite
  | finished
  deriving Repr, DecidableEq

/-- Shared state: the credential table plus a counter of refresh-token grants
POSTed so far. -/
structure SharedState where
  store : CredStore
  grants : Nat
  deriving Repr, DecidableEq

/-- One atomic phase of a refresher task for `userId` (mirroring
`checkAndRefreshToken` → `refreshAccessToken` with a fixed successful grant
response `b`). -/
def refresherStep (userId : String) (now : Int) (b : TokenResponseBody) :
    RefresherPhase × SharedState → RefresherPhase × SharedState
  | (.toCheck, s) =>
    match findByUserId s.store userId with
    | none => (.finished, s)
    | some cred =>
      if cred.expiresAt - now < REFRESH_BUFFER_MS then (.toGrant, s) else (.finished, s)
  | (.toGrant, s) => (.toWrite, { s with grants := s.grants + 1 })
  | (.toWrite, s) =>
    let p : UpdateTokenParams :=
      ⟨userId, b.access_token.getD "", now + b.expires_in * 1000, b.refresh_token⟩
    (.finished, { s with store := updateAccessToken s.store p })
  | (.finished, s) => (.finished, s)

/-- Run two refresher tasks under an explicit schedule (`false` steps the first
task, `true` the second), as the event loop would interleave them. -/
def runTwoRefreshers (userId : String) (now : Int) (b : TokenResponseBody) :
    List Bool → (RefresherPhase × RefresherPhase × SharedState) →
    RefresherPhase × RefresherPhase × SharedState
  | [], st => st
  | pick :: rest, (p₀, p₁, s) =>
    if pick then
      let (p₁', s') := refresherStep userId now b (p₁, s)
      runTwoRefreshers userId now b rest (p₀, p₁', s')
    else
      let (p₀', s') := refresherStep userId now b (p₀, s)
      runTwoRefreshers userId now b rest (p₀', p₁, s')

/-!
Issue-triage pipeline, embedded from `ProcessIssuesUseCase.execute`
(src/unnamed/part_006 = src/application/usecases/jira/process-issues.usecase.ts).

Embedding choices:
* a raw payload failing the guard `!rawJson || !Array.isArray(rawJson.issues)`
  is `issues = none`;
* each `fields.x || default` access reads an `Option String` through JS
  truthiness (`jsOr` / `jsOrNull`);
* the `new Date(createdStr)` parse is oracled into the input as a
  `CreatedField` (`missing` = absent or empty string, `parseable t` = parses
  to epoch milliseconds `t`, `unparseable` = non-empty string giving an
  Invalid Date, which is a truthy object whose `getTime()` is NaN);
* `timeOpenDays` is a `JsNumber` because `Math.floor(NaN) = NaN`;
* the dynamic `statusCounts` object is an association list with the same keys
  and counts as the code's counting loop (key order abstracted).
-/

/-- A JS number as `timeOpenDays` is computed: an integer, or NaN
(`Math.floor(NaN)` is NaN). -/
inductive JsNumber where
  | num (n : Int)
  | nan
  deriving Repr, DecidableEq

/-- The `fields.created` value with the JS `Date` parse oracled in:
`missing` when `fields.created` is absent/falsy (so `createdStr` is `""` and
`created` is `null`); `parseable t` when the non-empty string parses to epoch
milliseconds `t`; `unparseable` when it yields an Invalid Date. -/
inductive CreatedField where
  | missing
  | parseable (t : Int)
  | unparseable
  deriving Repr, DecidableEq

/-- JavaScript `x || d` for an optional string field: the string when truthy,
the default otherwise. -/
def jsOr (o : Option String) (d : String) : String :=
  match o with
  | some s => if s ≠ "" then s else d
  | none => d

/-- JavaScript `x || null` for an optional string field: kept when truthy,
`null` otherwise. -/
def jsOrNull (o : Option String) : Option String :=
  match o with
  | some s => if s ≠ "" then some s else none
  | none => none

/-- The fields of one raw issue that `execute` reads: `issue.key`,
`fields.summary`, `fields.status?.name`, `fields.created`,
`fields.assignee?.displayName`, `fields.reporter?.displayName`,
`fields.priority?.name`. -/
structure RawIssue where
  key : String
  summary : Option String
  statusName : Option String
  created : CreatedField
  assignee : Option String
  reporter : Option String
  priority : Option String
  deriving Repr, DecidableEq

/-- A raw search payload; `issues = none` embeds every input rejected by the
guard `!rawJson || !Array.isArray(rawJson.issues)` (`{}`,
`{issues: "not-an-array"}`, …). -/
structure RawSearchResult where
  issues : Option (List RawIssue)
  deriving Repr, DecidableEq

/-- One summarized issue (`IssueSummaryDto`). -/
structure IssueSummary where
  key : String
  summary : String
  status : String
  created : CreatedField
  assignee : Option String
  reporter : Option String
  priority : Option String
  timeOpenDays : JsNumber
  deriving Repr, DecidableEq

/-- The pipeline result (`ProcessedIssuesResponseDto`): `total`, the summarized
issues, and the dynamic per-status counts. -/
structure ProcessedIssuesResult where
  total : Nat
  issues : List IssueSummary
  statusCounts : List (String × Nat)
  deriving Repr, DecidableEq

/-- Drops leading and trailing whitespace from a character list. -/
def trimChars (cs : List Char) : List Char :=
  ((cs.dropWhile (fun c => c.isWhitespace)).reverse.dropWhile (fun c => c.isWhitespace)).reverse

/-- The filter's status normalization `statusName.trim().toLowerCase()`,
spelled out over the character list so that it computes.  (`Char.toLower`
folds ASCII letters exactly as JS does; the accented letters appearing in the
exclusion set are already lower-case there.) -/
def normalizeStatus (s : String) : String := ⟨(trimChars s.toList).map Char.toLower⟩

/-- The hardcoded exclusion set of `execute`, step 2:
`new Set(['resolvido', 'concluído', 'cancelado'])`. -/
def excludedStatuses : List String := ["resolvido", "concluído", "cancelado"]

/-- The `timeOpenDays` computation of `execute`, step 3: `0` when `created` is
`null` (missing/empty string); `Math.floor((now - created.getTime()) / 86 400 000)`
when the date parsed (`Int` division by the positive constant is floor
division); NaN when `created` is an Invalid Date — the object is truthy, its
`getTime()` is NaN, and `Math.floor(NaN)` is NaN. -/
def timeOpenDaysOf (now : Int) : CreatedField → JsNumber
  | .missing => .num 0
  | .parseable t => .num ((now - t) / 86400000)
  | .unparseable => .nan

/-- Step 3 of `execute`: map one retained raw issue to its summary, applying
the `|| ''`, `|| 'UNKNOWN'` and `|| null` defaults of the source. -/
def summarizeIssue (now : Int) (i : RawIssue) : IssueSummary :=
  { key := i.key
    summary := jsOr i.summary ""
    status := jsOr i.statusName "UNKNOWN"
    created := i.created
    assignee := jsOrNull i.assignee
    reporter := jsOrNull i.reporter
    priority := jsOrNull i.priority
    timeOpenDays := timeOpenDaysOf now i.created }

/-- Step 4 of `execute`: the dynamic per-status counting loop
`statusCounts[st] = (statusCounts[st] || 0) + 1`, as an association list with
each observed status mapped to its occurrence count. -/
def countsByStatus (items : List IssueSummary) : List (String × Nat) :=
  let statuses := items.map (fun it => it.status)
  statuses.dedup.map (fun s => (s, statuses.count s))

/-- Embeds `ProcessIssuesUseCase.execute`: the zero-value result behind the
malformed-payload guard; otherwise filter out the issues whose normalized
`fields.status?.name || ''` is in the exclusion set, summarize the remaining
issues, and count per status. -/
def processIssues (now : Int) (raw : RawSearchResult) : ProcessedIssuesResult :=
  match raw.issues with
  | none => ⟨0, [], []⟩
  | some issues =>
    let kept := issues.filter
      (fun i => !(excludedStatuses.contains (normalizeStatus (jsOr i.statusName ""))))
    let items := kept.map (summarizeIssue now)
    ⟨items.length, items, countsByStatus items⟩


/-!  Helper lemmas (shared by several claim theorems). -/

lemma applyTokenUpdate_userId (p : UpdateTokenParams) (r : JiraCredentialEntity) :
    (applyTokenUpdate p r).userId = r.userId := rfl

lemma findByUserId_updateAccessToken (store : CredStore) (p : UpdateTokenParams) :
    findByUserId (updateAccessToken store p) p.userId =
      (findByUserId store p.userId).map (applyTokenUpdate p) := by
  induction store with
  | nil => rfl
  | cons r rs ih =>
    simp only [updateAccessToken, List.map_cons, findByUserId, List.find?] at *
    cases h : r.userId == p.userId with
    | true => simp [h, applyTokenUpdate_userId]
    | false => simpa [h, applyTokenUpdate_userId] using ih

lemma updateFirstRow_length (p : UpsertParams) (store : List JiraCredentialEntity) :
    (updateFirstRow p store).length = store.length := by
  induction store with
  | nil => rfl
  | cons r rs ih =>
    by_cases h : (r.userId == p.userId) = true
    · simp [updateFirstRow, h]
    · simp [updateFirstRow, h, ih]

lemma findByUserId_updateFirstRow (store : CredStore) (p : UpsertParams) :
    findByUserId (updateFirstRow p store) p.userId =
      (findByUserId store p.userId).map
        (fun r => { r with cloudId := p.cloudId, accessToken := p.accessToken,
                           refreshToken := p.refreshToken, expiresAt := p.expiresAt }) := by
  induction store with
  | nil => rfl
  | cons r rs ih =>
    by_cases h : (r.userId == p.userId) = true
    · simp [updateFirstRow, findByUserId, List.find?, h]
    · simp only [updateFirstRow, h, if_false, Bool.false_eq_true, findByUserId, List.find?] at *
      simpa [h] using ih

/-- Helper: every issue retained by the pipeline has a summary status outside
the exclusion set (a falsy status name is filtered as `""` but summarized as
`"UNKNOWN"`, neither of which normalizes into the set). -/
lemma processIssues_status_not_excluded (now : Int) (raw : RawSearchResult)
    (it : IssueSummary) (hit : it ∈ (processIssues now raw).issues) :
    excludedStatuses.contains (normalizeStatus it.status) = false := by
  cases hr : raw.issues with
  | none => simp [processIssues, hr] at hit
  | some issues =>
    simp only [processIssues, hr] at hit
    obtain ⟨i, hi, rfl⟩ := List.mem_map.mp hit
    have hf := List.of_mem_filter hi
    simp only [Bool.not_eq_true'] at hf
    cases hs : i.statusName with
    | none =>
      have h1 : (summarizeIssue now i).status = "UNKNOWN" := by
        simp [summarizeIssue, jsOr, hs]
      rw [h1]
      decide
    | some s =>
      by_cases he : s = ""
      · have h1 : (summarizeIssue now i).status = "UNKNOWN" := by
          simp [summarizeIssue, jsOr, hs, he]
        rw [h1]
        decide
      · have h1 : (summarizeIssue now i).status = s := by
          simp [summarizeIssue, jsOr, hs, he]
        have h2 : jsOr i.statusName "" = s := by
          simp [jsOr, hs, he]
        rw [h1]
        rw [h2] at hf
        exact hf

/-- C8: a payload without a well-formed issues array yields the zero-value
result — total 0, no items, empty status counts — and (being a total Lean
function) the pipeline cannot throw. -/
theorem malformed_payload_zero_result :
    ∀ (now : Int) (raw : RawSearchResult), raw.issues = none →
      processIssues now raw = ⟨0, [], []⟩ := by
  intro now raw h
  simp [processIssues, h]

theorem malformed_payload_zero_result_witness :
    processIssues 0 ⟨none⟩ = ⟨0, [], []⟩ :=
  malformed_payload_zero_result 0 ⟨none⟩ rfl

/-- C10: the pipeline result is internally consistent — `total` is the length
of the returned issue list, and the per-status counts sum to `total`. -/
theorem triage_result_internally_consistent :
    ∀ (now : Int) (raw : RawSearchResult),
    (processIssues now raw).total = (processIssues now raw).issues.length ∧
    ((processIssues now raw).statusCounts.map (fun sc => sc.2)).sum =
      (processIssues now raw).total := by
  intro now raw
  cases hr : raw.issues with
  | none => simp [processIssues, hr]
  | some issues =>
    constructor
    · simp [processIssues, hr]
    · simp only [processIssues, hr, countsByStatus]
      rw [List.map_map]
      have := List.sum_map_count_dedup_eq_length
        ((issues.filter
          (fun i => !(excludedStatuses.contains (normalizeStatus (jsOr i.statusName ""))))).map
            (summarizeIssue now) |>.map (fun it => it.status))
      simpa [Function.comp] using this

/-- C7: at the failing input — an issue whose `fields.created` is a non-empty
unparseable string — the code yields `timeOpenDays = NaN`, not the `0` that
the claim and the use case's own doc comment ("Se a data de criação for
inválida ou ausente, `timeOpenDays` será 0") promise: the Invalid Date object
is truthy, its `getTime()` is NaN, and `Math.floor(NaN)` is NaN. -/
theorem unparseable_created_nan :
    (processIssues 0 ⟨some [⟨"K-1", some "t", some "Open", .unparseable,
        none, none, none⟩]⟩).issues =
      [⟨"K-1", "t", "Open", .unparseable, none, none, none, .nan⟩] ∧
    JsNumber.nan ≠ JsNumber.num 0 :=
  ⟨rfl, by decide⟩

/-- C6 counterexample: an issue with status "Resolved" — whose trimmed,
case-folded status is "resolved" — is NOT excluded: the hardcoded exclusion
set is the Portuguese {resolvido, concluído, cancelado}, so the issue is
retained in `issues` and appears as a key of `statusCounts`. -/
theorem resolved_retained_cx :
    (processIssues 0 ⟨some [⟨"K-1", some "t", some "Resolved", .missing,
        none, none, none⟩]⟩).issues =
      [⟨"K-1", "t", "Resolved", .missing, none, none, none, .num 0⟩] ∧
    (processIssues 0 ⟨some [⟨"K-1", some "t", some "Resolved", .missing,
        none, none, none⟩]⟩).statusCounts = [("Resolved", 1)] ∧
    normalizeStatus "Resolved" = "resolved" :=
  ⟨rfl, rfl, by decide⟩

/-- C6 (amended): the triage filter excludes exactly the statuses whose
trimmed, case-folded form is in the hardcoded Portuguese set
{resolvido, concluído, cancelado}: no retained item and no statusCounts key
normalizes into that set (an English "Resolved" is retained, as the
counterexample shows). -/
theorem portuguese_statuses_excluded :
    ∀ (now : Int) (raw : RawSearchResult),
    (∀ it ∈ (processIssues now raw).issues,
      excludedStatuses.contains (normalizeStatus it.status) = false) ∧
    (∀ sc ∈ (processIssues now raw).statusCounts,
      excludedStatuses.contains (normalizeStatus sc.1) = false) := by
  intro now raw
  have hmain : ∀ it ∈ (processIssues now raw).issues,
      excludedStatuses.contains (normalizeStatus it.status) = false :=
    fun it hit => processIssues_status_not_excluded now raw it hit
  refine ⟨hmain, ?_⟩
  intro sc hsc
  cases hr : raw.issues with
  | none => simp [processIssues, hr] at hsc
  | some issues =>
    simp only [processIssues, hr, countsByStatus] at hsc
    obtain ⟨s, hs, rfl⟩ := List.mem_map.mp hsc
    obtain ⟨it, hit, rfl⟩ := List.mem_map.mp (List.mem_dedup.mp hs)
    exact hmain it (by simp only [processIssues, hr]; exact hit)

theorem portuguese_statuses_excluded_witness :
    excludedStatuses.contains (normalizeStatus
      (⟨"K-2", "t", "Open", .missing, none, none, none, .num 0⟩ : IssueSummary).status) =
      false := by
  have hlist : (processIssues 0
      ⟨some [⟨"K-2", some "t", some "Open", .missing, none, none, none⟩]⟩).issues =
      [⟨"K-2", "t", "Open", .missing, none, none, none, .num 0⟩] := rfl
  have hmem : (⟨"K-2", "t", "Open", .missing, none, none, none, .num 0⟩ : IssueSummary) ∈
      (processIssues 0
        ⟨some [⟨"K-2", some "t", some "Open", .missing, none, none, none⟩]⟩).issues := by
    rw [hlist]
    exact List.mem_singleton_self _
  exact (portuguese_statuses_excluded 0
      ⟨some [⟨"K-2", some "t", some "Open", .missing, none, none, none⟩]⟩).1 _ hmem

/-- C5: when the stored credential still has at least `REFRESH_BUFFER_MS` of
life left, the scheduled check leaves the store unchanged and issues zero
refresh-grant POSTs. -/
theorem valid_token_not_refreshed :
    ∀ (env : AuthEnv) (store : CredStore) (http : HttpOutcome TokenResponseBody)
      (now : Int) (cred : JiraCredentialEntity),
    findByUserId store "default" = some cred →
    REFRESH_BUFFER_MS ≤ cred.expiresAt - now →
    checkAndRefreshToken env store http now = (store, 0) := by
  intro env store http now cred hf hbuf
  simp [checkAndRefreshToken, hf, not_lt.mpr hbuf]

theorem valid_token_not_refreshed_witness :
    checkAndRefreshToken ⟨some "id", some "sec", some "uri"⟩
        [⟨"default", "cloud", "tokenA", "tokenR", 10000000⟩]
        (.ok ⟨some "x", some "y", 3600⟩) 0 =
      ([⟨"default", "cloud", "tokenA", "tokenR", 10000000⟩], 0) :=
  valid_token_not_refreshed _ _ _ _ ⟨"default", "cloud", "tokenA", "tokenR", 10000000⟩
    (by decide) (by decide)

/-- C9: upsert followed by findByIdentity returns a credential whose
cloudId/accessToken/refreshToken/expiresAt equal the upserted values, and when
the identity key already has a row the upsert keeps the row count unchanged
(it replaces the existing row instead of creating a duplicate). -/
theorem upsert_find_roundtrip_unique :
    ∀ (store : CredStore) (p : UpsertParams),
    (∃ c, findByUserId (upsertCredentials store p) p.userId = some c ∧
      c.cloudId = p.cloudId ∧ c.accessToken = p.accessToken ∧
      c.refreshToken = p.refreshToken ∧ c.expiresAt = p.expiresAt) ∧
    ((findByUserId store p.userId).isSome = true →
      (upsertCredentials store p).length = store.length) := by
  intro store p
  cases hf : findByUserId store p.userId with
  | none =>
    constructor
    · refine ⟨⟨p.userId, p.cloudId, p.accessToken, p.refreshToken, p.expiresAt⟩,
        ?_, rfl, rfl, rfl, rfl⟩
      simp only [upsertCredentials, hf]
      unfold findByUserId at hf ⊢
      rw [List.find?_append, hf]
      simp [List.find?]
    · intro hs
      simp at hs
  | some r =>
    constructor
    · have h2 := findByUserId_updateFirstRow store p
      rw [hf] at h2
      simp only [upsertCredentials, hf]
      exact ⟨_, h2, rfl, rfl, rfl, rfl⟩
    · intro _
      simp only [upsertCredentials, hf]
      exact updateFirstRow_length p store

theorem upsert_find_roundtrip_unique_witness :
    (∃ c, findByUserId (upsertCredentials [⟨"default", "c0", "a0", "r0", 1⟩]
        ⟨"default", "c1", "a1", "r1", 5⟩) "default" = some c ∧
      c.cloudId = "c1" ∧ c.accessToken = "a1" ∧ c.refreshToken = "r1" ∧ c.expiresAt = 5) ∧
    (upsertCredentials [⟨"default", "c0", "a0", "r0", 1⟩]
        ⟨"default", "c1", "a1", "r1", 5⟩).length = 1 := by
  have h := upsert_find_roundtrip_unique [⟨"default", "c0", "a0", "r0", 1⟩]
      ⟨"default", "c1", "a1", "r1", 5⟩
  exact ⟨h.1, h.2 rfl⟩

/-- C4 counterexample: `updateAccessToken` called with the refresh token `""`
does not replace the stored refresh token — the JS truthiness guard
`if (newRefreshToken)` drops it, so the row keeps `"oldR"`. -/
theorem update_tokens_empty_refresh_cx :
    findByUserId (updateAccessToken [⟨"default", "cloud", "oldA", "oldR", 50000⟩]
        ⟨"default", "a2", 99, some ""⟩) "default" =
      some ⟨"default", "cloud", "a2", "oldR", 99⟩ ∧ ("oldR" : String) ≠ "" :=
  ⟨rfl, by decide⟩

/-- C4 (amended): without a new refresh token the previously stored refresh
token is preserved; with a non-empty new refresh token it is replaced (an
empty-string token fails the truthiness check and the old value is kept, as
the counterexample shows); accessToken and expiresAt are always rewritten. -/
theorem update_tokens_refresh_policy :
    ∀ (store : CredStore) (userId a : String) (e : Int),
    (findByUserId (updateAccessToken store ⟨userId, a, e, none⟩) userId =
      (findByUserId store userId).map
        (fun r => { r with accessToken := a, expiresAt := e })) ∧
    (∀ t : String, t ≠ "" →
      findByUserId (updateAccessToken store ⟨userId, a, e, some t⟩) userId =
        (findByUserId store userId).map
          (fun r => { r with accessToken := a, expiresAt := e, refreshToken := t })) := by
  intro store userId a e
  constructor
  · rw [findByUserId_updateAccessToken]
    rfl
  · intro t ht
    rw [findByUserId_updateAccessToken]
    cases findByUserId store userId with
    | none => rfl
    | some r => simp [applyTokenUpdate, ht]

theorem update_tokens_refresh_policy_witness :
    findByUserId (updateAccessToken [⟨"default", "cloud", "oldA", "oldR", 50000⟩]
        ⟨"default", "a2", 99, some "newR"⟩) "default" =
      some ⟨"default", "cloud", "a2", "newR", 99⟩ := by
  have h := (update_tokens_refresh_policy [⟨"default", "cloud", "oldA", "oldR", 50000⟩]
      "default" "a2" 99).2 "newR" (by decide)
  exact h.trans rfl

/-- C2 counterexample: a refresh response that carries an access_token but no
refresh_token still fails (with the missing-tokens error), although the claim
allows failure only on transport error or a missing access_token; the store
is nevertheless unchanged. -/
theorem refresh_failure_cx :
    (refreshAccessToken ⟨some "id", some "sec", some "uri"⟩
        [⟨"default", "cloud", "oldA", "oldR", 50000⟩] "default"
        (.ok ⟨some "newA", none, 3600⟩) 0).result = .error .missingTokens ∧
    truthy (some "newA") = true ∧
    (HttpOutcome.ok (⟨some "newA", none, 3600⟩ : TokenResponseBody) ≠ .transportError) ∧
    (refreshAccessToken ⟨some "id", some "sec", some "uri"⟩
        [⟨"default", "cloud", "oldA", "oldR", 50000⟩] "default"
        (.ok ⟨some "newA", none, 3600⟩) 0).store =
      [⟨"default", "cloud", "oldA", "oldR", 50000⟩] :=
  ⟨rfl, rfl, by decide, rfl⟩

/-- C2 (amended): the refresh fails exactly when there is no stored credential,
the client id or secret configuration is missing, the grant POST fails in
transport, or the response lacks a truthy access_token or refresh_token; and
in every failure case the stored credential row is completely unchanged. -/
theorem refresh_failure_iff_no_partial_write :
    ∀ (env : AuthEnv) (store : CredStore) (userId : String)
      (http : HttpOutcome TokenResponseBody) (now : Int),
    (((refreshAccessToken env store userId http now).result.isOk = false) ↔
      (findByUserId store userId = none ∨ truthy env.clientId = false ∨
       truthy env.clientSecret = false ∨ http = .transportError ∨
       (∃ b, http = .ok b ∧
         (truthy b.access_token = false ∨ truthy b.refresh_token = false)))) ∧
    ((refreshAccessToken env store userId http now).result.isOk = false →
      (refreshAccessToken env store userId http now).store = store) := by
  intro env store userId http now
  cases hf : findByUserId store userId with
  | none => simp [refreshAccessToken, hf, Except.isOk, Except.toBool]
  | some cred =>
    cases h1 : truthy env.clientId with
    | false => simp [refreshAccessToken, hf, h1, Except.isOk, Except.toBool]
    | true =>
      cases h2 : truthy env.clientSecret with
      | false => simp [refreshAccessToken, hf, h1, h2, Except.isOk, Except.toBool]
      | true =>
        cases http with
        | transportError =>
          simp [refreshAccessToken, hf, h1, h2, Except.isOk, Except.toBool]
        | ok b =>
          cases h3 : truthy b.access_token with
          | false => simp [refreshAccessToken, hf, h1, h2, h3, Except.isOk, Except.toBool]
          | true =>
            cases h4 : truthy b.refresh_token with
            | false =>
              simp [refreshAccessToken, hf, h1, h2, h3, h4, Except.isOk, Except.toBool]
            | true =>
              simp [refreshAccessToken, hf, h1, h2, h3, h4, Except.isOk, Except.toBool]

theorem refresh_failure_iff_no_partial_write_witness :
    (refreshAccessToken ⟨some "id", some "sec", some "uri"⟩
        [⟨"default", "cloud", "oldA", "oldR", 50000⟩] "default"
        .transportError 0).store = [⟨"default", "cloud", "oldA", "oldR", 50000⟩] :=
  (refresh_failure_iff_no_partial_write ⟨some "id", some "sec", some "uri"⟩
      [⟨"default", "cloud", "oldA", "oldR", 50000⟩] "default" .transportError 0).2 rfl

/-- C3: the callback controller's outward JSON body carries exactly the
message, cloudId and expiresIn of a successful exchange, and is independent of
the access and refresh tokens the exchange obtained: two provider responses
differing only in their tokens produce identical outward values. -/
theorem callback_outward_no_tokens :
    ∀ (env : AuthEnv) (store : CredStore) (userId : String)
      (b b' : TokenResponseBody) (res : HttpOutcome (List AccessibleResource)) (now : Int),
    b.expires_in = b'.expires_in →
    truthy b.access_token = true → truthy b.refresh_token = true →
    truthy b'.access_token = true → truthy b'.refresh_token = true →
    (oauthCallbackOutward (handleCallback env store userId (.ok b) res now) =
      oauthCallbackOutward (handleCallback env store userId (.ok b') res now)) ∧
    (∀ r, (handleCallback env store userId (.ok b) res now).2 = .ok r →
      oauthCallbackOutward (handleCallback env store userId (.ok b) res now) =
        some ⟨"Autorização concluída com sucesso!", r.cloudId, r.expiresIn⟩) := by
  intro env store userId b b' res now hexp hba hbr hba' hbr'
  by_cases hc : (truthy env.clientId && truthy env.clientSecret && truthy env.redirectUri) = true
  · cases res with
    | transportError =>
      simp [handleCallback, hc, hba, hbr, hba', hbr', oauthCallbackOutward]
    | ok resources =>
      cases resources with
      | nil => simp [handleCallback, hc, hba, hbr, hba', hbr', oauthCallbackOutward]
      | cons r0 rest =>
        constructor
        · simp [handleCallback, hc, hba, hbr, hba', hbr', oauthCallbackOutward,
            callbackResponse, hexp]
        · intro r hr
          simp only [handleCallback, hc, if_true, hba, hbr, Bool.and_self] at hr
          have hre := Except.ok.inj hr
          subst hre
          simp [handleCallback, hc, hba, hbr, oauthCallbackOutward, callbackResponse]
  · have hcf : (truthy env.clientId && truthy env.clientSecret && truthy env.redirectUri) = false :=
      Bool.eq_false_iff.mpr hc
    simp [handleCallback, hcf, oauthCallbackOutward]

theorem callback_outward_no_tokens_witness :
    oauthCallbackOutward (handleCallback ⟨some "id", some "sec", some "uri"⟩ [] "default"
        (.ok ⟨some "atk", some "rtk", 3600⟩) (.ok [⟨"cloudX"⟩]) 0) =
      some ⟨"Autorização concluída com sucesso!", "cloudX", 3600⟩ :=
  (callback_outward_no_tokens ⟨some "id", some "sec", some "uri"⟩ [] "default"
      ⟨some "atk", some "rtk", 3600⟩ ⟨some "other", some "tokens", 3600⟩
      (.ok [⟨"cloudX"⟩]) 0 rfl rfl rfl rfl rfl).2 ⟨"atk", "rtk", "cloudX", 3600⟩ rfl

/-- C1 counterexample: two concurrent refreshers for the key "default", both
within the refresh buffer (50 000 ms left < 60 000 ms), interleaved
check–check–grant–grant–write–write on the event loop, issue two refresh-token
grants — not at most one. -/
theorem single_flight_cx :
    (runTwoRefreshers "default" 0 ⟨some "a1", some "r1", 3600⟩
        [false, true, false, true, false, true]
        (.toCheck, .toCheck, ⟨[⟨"default", "cloud", "oldA", "oldR", 50000⟩], 0⟩)).2.2.grants = 2 ∧
    (50000 : Int) - 0 < REFRESH_BUFFER_MS :=
  ⟨rfl, by decide⟩

/-- C1 (amended): `refreshAccessToken` takes no per-identity lock and caches no
in-flight promise, so the single-flight property fails: whenever a credential
is within the refresh buffer, the interleaving in which both concurrent
`ensureFresh` callers read it before either writes makes each caller issue its
own refresh-token grant — two grants for two callers. -/
theorem no_single_flight_two_grants :
    ∀ (c : JiraCredentialEntity) (now : Int) (b : TokenResponseBody),
    c.userId = "default" → c.expiresAt - now < REFRESH_BUFFER_MS →
    (runTwoRefreshers "default" now b [false, true, false, true, false, true]
        (.toCheck, .toCheck, ⟨[c], 0⟩)).2.2.grants = 2 := by
  intro c now b h1 h2
  have hb : (c.userId == "default") = true := by simp [h1]
  simp [runTwoRefreshers, refresherStep, findByUserId, List.find?, hb, h2]

theorem no_single_flight_two_grants_witness :
    (runTwoRefreshers "default" 1000 ⟨some "a2", some "r2", 3600⟩
        [false, true, false, true, false, true]
        (.toCheck, .toCheck, ⟨[⟨"default", "c", "a", "r", 30000⟩], 0⟩)).2.2.grants = 2 :=
  no_single_flight_two_grants ⟨"default", "c", "a", "r", 30000⟩ 1000
    ⟨some "a2", some "r2", 3600⟩ rfl (by decide)
